import Mathlib

/-!
# Verification of the TDS Virtual Teaching Assistant answering core

Shallow embedding of the request path of `app.py`: context assembly
(`create_context`), token-budget truncation, OCR wrapping (`process_image`),
keyword link extraction, and the `POST /api/` endpoint wrapper, together with
theorems settling the testable properties of the specification.

Python strings are modelled as Lean `String` values; Python `s[:n]` slicing is
`pyTake`, `str.lower()` is `pyLower`, `str.strip()` is `pyStrip`,
`"\n".join(parts)` is `pyJoin "\n" parts`, and the substring test
`needle in hay` is `hasSub`.  Python dicts (whose iteration order is
insertion order) are association lists.  External collaborators — the
tiktoken tokenizer, the OCR engine and the chat-completion API — are
parameters of the embedding: the repository only calls them.
-/

namespace TDS

/-- One entry of `course_content.json`: the code reads `content_data` at key
`title`, at key `url`, and `content_data.get` with key `raw_content` and
default `""`; the last access has a default, so the field is optional. -/
structure CourseEntry where
  title : String
  url : String
  raw_content : Option String
deriving DecidableEq, Repr

/-- One discourse post: the code reads the `post_number` and `content` keys
of the post dict directly. -/
structure Post where
  post_number : Nat
  content : String
deriving DecidableEq, Repr

/-- One topic of `discourse_posts.json`: the code reads the `title` and `url`
keys directly and `topic_data.get` with key `posts` and default `[]`
(optional, default empty). -/
structure Topic where
  title : String
  url : String
  posts : Option (List Post)
deriving DecidableEq, Repr

/-- The `LinkResponse` pydantic model: `url` and `text`. -/
structure LinkResponse where
  url : String
  text : String
deriving DecidableEq, Repr

/-- The `AnswerResponse` pydantic model: `answer` and `links`. -/
structure AnswerResponse where
  answer : String
  links : List LinkResponse
deriving DecidableEq, Repr

/-- The `QuestionRequest` pydantic model: `question` and optional base64
`image`. -/
structure QuestionRequest where
  question : String
  image : Option String
deriving DecidableEq, Repr

/-- Python slicing `s[:n]` on a `str`: the first `n` characters. -/
def pyTake (s : String) (n : Nat) : String :=
  String.mk (s.data.take n)

/-- Character count of a Python `str` (`len(s)`). -/
def pyLen (s : String) : Nat :=
  s.data.length

/-- Whitespace as stripped by Python `str.strip()` (the six ASCII whitespace
characters; Python additionally strips some rarer Unicode whitespace, which
only widens the set of questions rejected as blank). -/
def isPySpace (c : Char) : Bool :=
  c == ' ' || c == '\t' || c == '\n' || c == '\r' || c == '\x0b' || c == '\x0c'

/-- Python `str.strip()`: remove leading and trailing whitespace. -/
def pyStrip (s : String) : String :=
  String.mk (((s.data.dropWhile isPySpace).reverse.dropWhile isPySpace).reverse)

/-- Python `str.lower()` (ASCII case folding, which covers the fixed keyword
set and the questions of the examples). -/
def pyLower (s : String) : String :=
  String.mk (s.data.map Char.toLower)

/-- Python `sep.join(parts)`. -/
def pyJoin (sep : String) : List String → String
  | [] => ""
  | [s] => s
  | s :: rest => s ++ sep ++ pyJoin sep rest

/-- Does the needle occur as a prefix of the haystack? (helper for
`hasSub`). -/
def subAt : List Char → List Char → Bool
  | [], _ => true
  | _ :: _, [] => false
  | a :: as, b :: bs => a == b && subAt as bs

/-- Python substring test `needle in hay` over character lists. -/
def hasSub (needle : List Char) : List Char → Bool
  | [] => needle.isEmpty
  | b :: bs => subAt needle (b :: bs) || hasSub needle bs

/-- `TDSQuestionAnswerer.process_image`: the guarded block decodes the base64
image and runs `pytesseract.image_to_string`; its outcome (OCR text, or the
exception message of any failure inside the block) is the argument.  On
success the stripped text is returned, or `"No text extracted from image"`
when the stripped text is empty; on any exception the fixed placeholder
`"Error processing image"` is returned — the function never raises. -/
def process_image (ocrOutcome : Except String String) : String :=
  match ocrOutcome with
  | .ok text => if pyStrip text = "" then "No text extracted from image" else pyStrip text
  | .error _ => "Error processing image"

/-- `TDSQuestionAnswerer.create_context`: assemble the context parts and join
them with `"\n"`.  The image section is guarded by Python truthiness
(`if image_text:`), so it appears only when `image_text` is present AND
non-empty. -/
def create_context (question : String) (course_content : List (String × CourseEntry))
    (discourse_posts : List (String × Topic)) (image_text : Option String) : String :=
  let image_parts : List String :=
    match image_text with
    | some t => if t = "" then [] else ["=== IMAGE CONTENT ===", pyTake t 1000]
    | none => []
  let course_parts : List String :=
    ["\n=== COURSE CONTENT ==="] ++ course_content.flatMap (fun fc =>
      ["\n## " ++ fc.2.title, "URL: " ++ fc.2.url, pyTake (fc.2.raw_content.getD "") 2000])
  let discourse_parts : List String :=
    ["\n\n=== DISCOURSE POSTS ==="] ++ discourse_posts.flatMap (fun tt =>
      ["\n## " ++ tt.2.title, "URL: " ++ tt.2.url] ++
        (tt.2.posts.getD []).map (fun p =>
          "Post #" ++ toString p.post_number ++ ": " ++ pyTake p.content 1000))
  pyJoin "\n" (image_parts ++ course_parts ++ discourse_parts)

/-- The truncation step of `answer_question`: when `self.count_tokens` of the
context exceeds 12000, cut the context to its first 12000 characters.
`count_tokens` (the tiktoken encoding for gpt-3.5-turbo, an external
library) is a parameter of the embedding. -/
def truncate_context (count_tokens : String → Nat) (context : String) : String :=
  if count_tokens context > 12000 then pyTake context 12000 else context

/-- The link built for one post of one topic in `answer_question`: the url is
the topic url, `"/"`, and the post number; the text is the post content
truncated to 100 characters with `"..."` appended when longer than 100
characters, else the exact content. -/
def mkLink (topic : Topic) (post : Post) : LinkResponse :=
  { url := topic.url ++ "/" ++ toString post.post_number
    text := if pyLen post.content > 100 then pyTake post.content 100 ++ "..." else post.content }

/-- The fixed keyword test of `answer_question`: some member of
`["gpt", "model", "api", "ga5"]` occurs in the lowercased question. -/
def hasKeyword (question : String) : Bool :=
  ["gpt", "model", "api", "ga5"].any (fun k => hasSub k.data (pyLower question).data)

/-- The link-collection loop of `answer_question` before the `[:3]` cut:
for every topic, if the question contains a keyword, every post of the topic
is appended in order. -/
def collect_links (question : String) (discourse_posts : List (String × Topic)) :
    List LinkResponse :=
  discourse_posts.flatMap (fun tt =>
    if hasKeyword question then (tt.2.posts.getD []).map (mkLink tt.2) else [])

/-- The links field of the returned `AnswerResponse`: `links[:3]`. -/
def answer_links (question : String) (discourse_posts : List (String × Topic)) :
    List LinkResponse :=
  (collect_links question discourse_posts).take 3

/-- All candidate links in discovery order: every post of every topic,
unconditionally.  Equal to `collect_links` whenever the question contains a
keyword. -/
def all_candidates (discourse_posts : List (String × Topic)) : List LinkResponse :=
  discourse_posts.flatMap (fun tt => (tt.2.posts.getD []).map (mkLink tt.2))

/-- An exception escaping the body of `answer_question`: either an
`openai.OpenAIError`, or any other exception caught by the generic
`except Exception` clause (for instance a failure raised while performing
the chat-completion call or decoding its response that is not an
`OpenAIError`). -/
inductive PyErr where
  | openaiErr (msg : String)
  | otherErr (msg : String)
deriving DecidableEq, Repr

/-- A `fastapi.HTTPException`: status code and detail message. -/
structure HTTPError where
  status : Nat
  detail : String
deriving DecidableEq, Repr

/-- An outbound call to an external collaborator, recorded so that theorems
can state that no upstream call was made. -/
inductive UpstreamCall where
  | ocrCall
  | chatCall
deriving DecidableEq, Repr

/-- The process-scoped environment of the service: the two data maps loaded
at startup and the external collaborators (tiktoken token counter, OCR
engine on the base64 payload, chat-completion API on the user message).
The chat API may fail with an `openai.OpenAIError` or raise any other
exception. -/
structure Env where
  course : List (String × CourseEntry)
  disc : List (String × Topic)
  count_tokens : String → Nat
  ocr : String → Except String String
  chat : String → Except PyErr String

/-- `TDSQuestionAnswerer.answer_question`: process the image if provided,
build and truncate the context, call the chat API, and attach the keyword
links.  An `openai.OpenAIError` becomes a 500 with detail
`"OpenAI API error: " ++ msg`; any other exception becomes a 500 with detail
`"Error processing question: " ++ msg`.  The second component records the
outbound calls made. -/
def answer_question_method (env : Env) (question : String) (image_data : Option String) :
    Except HTTPError AnswerResponse × List UpstreamCall :=
  let imageCalls : List UpstreamCall :=
    match image_data with
    | some _ => [UpstreamCall.ocrCall]
    | none => []
  let image_text : Option String := image_data.map (fun d => process_image (env.ocr d))
  let context0 := create_context question env.course env.disc image_text
  let context := truncate_context env.count_tokens context0
  let userMsg := "Context:\n" ++ context ++ "\n\nQuestion: " ++ question
  match env.chat userMsg with
  | .error (.openaiErr m) =>
      (.error ⟨500, "OpenAI API error: " ++ m⟩, imageCalls ++ [UpstreamCall.chatCall])
  | .error (.otherErr m) =>
      (.error ⟨500, "Error processing question: " ++ m⟩, imageCalls ++ [UpstreamCall.chatCall])
  | .ok answer_text =>
      (.ok ⟨answer_text, answer_links question env.disc⟩, imageCalls ++ [UpstreamCall.chatCall])

/-- The `POST /api/` endpoint: reject an empty (after `strip()`) question
with a 400 before any work; otherwise run `answer_question` (whose
`HTTPException` values pass through the re-raise clause unchanged; any other
exception raised at the endpoint level would become the generic 500
`"Internal server error"`). -/
def api_endpoint (env : Env) (request : QuestionRequest) :
    Except HTTPError AnswerResponse × List UpstreamCall :=
  if pyStrip request.question = "" then
    (.error ⟨400, "Question cannot be empty"⟩, [])
  else
    answer_question_method env request.question request.image

/-- Context assembly as worded by claim C6 (refinement comparison): the
image section is emitted whenever image text is PRESENT, with no
non-emptiness requirement; all other formatting (headers, banners, the
`"\n"` join) is not fixed by the words of the claim and is taken from the
code.  Differs from `create_context` only in the image guard. -/
def create_context_spec (question : String) (course_content : List (String × CourseEntry))
    (discourse_posts : List (String × Topic)) (image_text : Option String) : String :=
  let image_parts : List String :=
    match image_text with
    | some t => ["=== IMAGE CONTENT ===", pyTake t 1000]
    | none => []
  let course_parts : List String :=
    ["\n=== COURSE CONTENT ==="] ++ course_content.flatMap (fun fc =>
      ["\n## " ++ fc.2.title, "URL: " ++ fc.2.url, pyTake (fc.2.raw_content.getD "") 2000])
  let discourse_parts : List String :=
    ["\n\n=== DISCOURSE POSTS ==="] ++ discourse_posts.flatMap (fun tt =>
      ["\n## " ++ tt.2.title, "URL: " ++ tt.2.url] ++
        (tt.2.posts.getD []).map (fun p =>
          "Post #" ++ toString p.post_number ++ ": " ++ pyTake p.content 1000))
  pyJoin "\n" (image_parts ++ course_parts ++ discourse_parts)

/-- Modelled from the spec: the token estimator is "a tokenizer matching the
target model's vocabulary" (tiktoken for gpt-3.5-turbo), an external library
absent from the repository.  BPE tokenizers emit roughly one token per four
characters of plain ASCII text; this stand-in estimates tokens as the
character count divided by four. -/
def approxTokens (s : String) : Nat := pyLen s / 4

/-- A 2000-character course page body, used by the C1 counterexample. -/
def bigContent : String := String.mk (List.replicate 2000 'a')

/-- Seven course entries of 2000 characters each: the assembled context has
14147 characters, while the four-characters-per-token estimate stays far
below 12000 tokens. -/
def bigCourse : List (String × CourseEntry) :=
  [("a", ⟨"T", "u", some bigContent⟩), ("b", ⟨"T", "u", some bigContent⟩),
   ("c", ⟨"T", "u", some bigContent⟩), ("d", ⟨"T", "u", some bigContent⟩),
   ("e", ⟨"T", "u", some bigContent⟩), ("f", ⟨"T", "u", some bigContent⟩),
   ("g", ⟨"T", "u", some bigContent⟩)]

/-- Environment whose chat call raises a non-OpenAIError exception with
message `"boom"`, used for claim C5. -/
def envC5 : Env := ⟨[], [], fun _ => 0, fun _ => .ok "", fun _ => .error (.otherErr "boom")⟩

/-- Environment whose OCR engine fails and whose chat call succeeds, used by
the claim C7 witness. -/
def envC7 : Env :=
  ⟨[], [], fun _ => 0, fun _ => .error "tesseract failed", fun _ => .ok "answer"⟩

/-- Environment with trivial collaborators, used by the claim C4 witness. -/
def envC4 : Env := ⟨[], [], fun _ => 0, fun _ => .ok "", fun _ => .ok "a"⟩

/-- A topic with three posts, none mentioning the pinned model string, used
by claim C9. -/
def topicA : Topic :=
  ⟨"A", "https://discourse/t/7", some [⟨1, "alpha"⟩, ⟨2, "beta"⟩, ⟨3, "gamma"⟩]⟩

/-- A topic whose single post contains the pinned model string, used by
claim C9. -/
def topicB : Topic := ⟨"B", "https://discourse/t/42", some [⟨1, "use gpt-3.5-turbo-0125 here"⟩]⟩

/-- A discourse map in which `topicA` precedes `topicB`, used by the C9
counterexample: the three posts of `topicA` exhaust the three link slots. -/
def discC9 : List (String × Topic) := [("7", topicA), ("42", topicB)]

/-- A one-topic, one-post discourse map used by the claim C3 witness. -/
def discC3 : List (String × Topic) := [("1", ⟨"T", "u", some [⟨1, "short"⟩]⟩)]

theorem pyLen_append (s t : String) : pyLen (s ++ t) = pyLen s + pyLen t := by
  cases s with
  | mk a => cases t with
    | mk b => simp [pyLen, String.append]

theorem pyLen_pyTake (s : String) (n : Nat) : pyLen (pyTake s n) = min n (pyLen s) := by
  simp [pyLen, pyTake]

theorem pyLen_pyJoin (sep : String) (l : List String) :
    pyLen (pyJoin sep l) = (l.map pyLen).sum + (l.length - 1) * pyLen sep := by
  induction l with
  | nil => simp [pyJoin, pyLen]
  | cons s rest ih =>
    cases rest with
    | nil => simp [pyJoin]
    | cons t rest2 =>
      simp only [pyJoin, pyLen_append, ih]
      simp [List.length_cons]
      ring

theorem pyJoin_cons_cons (sep a b : String) (r : List String) :
    pyJoin sep (a :: b :: r) = a ++ sep ++ pyJoin sep (b :: r) := rfl

theorem dropWhile_of_all {p : Char → Bool} {l : List Char} (h : l.all p) :
    l.dropWhile p = [] := by
  induction l with
  | nil => rfl
  | cons a r ih =>
    simp only [List.all_cons, Bool.and_eq_true] at h
    simp [List.dropWhile, h.1, ih h.2]

theorem pyStrip_of_all {q : String} (h : q.data.all isPySpace) : pyStrip q = "" := by
  simp [pyStrip, dropWhile_of_all h]

theorem collect_links_eq_all (q : String) (d : List (String × Topic))
    (h : hasKeyword q = true) : collect_links q d = all_candidates d := by
  simp [collect_links, all_candidates, h]

theorem collect_links_eq_nil (q : String) (d : List (String × Topic))
    (h : hasKeyword q = false) : collect_links q d = [] := by
  induction d with
  | nil => rfl
  | cons t r ih => simp [collect_links, h] at ih ⊢

theorem ctx_len : pyLen (create_context "q" bigCourse [] none) = 14147 := by
  simp only [create_context, bigCourse, List.flatMap_cons, List.flatMap_nil,
    List.map_nil, List.append_nil, List.nil_append, List.cons_append, Option.getD_some]
  rw [pyLen_pyJoin]
  simp only [List.map_cons, List.map_nil, List.sum_cons, List.sum_nil,
    pyLen_pyTake, pyLen_append, List.length_cons, List.length_nil]
  norm_num [pyLen, bigContent]

theorem mem_take_three_append {α : Type} (x : α) (l1 l2 : List α) (h : l1.length ≤ 2) :
    x ∈ (l1 ++ x :: l2).take 3 := by
  rcases l1 with _ | ⟨a, _ | ⟨b, _ | ⟨c, r⟩⟩⟩
  · simp [List.take]
  · simp [List.take]
  · simp [List.take]
  · simp only [List.length_cons] at h; omega

/-- Claim C1, as stated, is false: with seven 2000-character course pages the
assembled context has 14147 characters, yet the token estimate (the
four-characters-per-token BPE approximation `approxTokens`) is 3536, below
the 12000-token trigger, so the truncation step leaves all 14147 characters
in place — more than 12000. -/
theorem C1_counterexample :
    12000 < pyLen (truncate_context approxTokens (create_context "q" bigCourse [] none)) := by
  have hc : approxTokens (create_context "q" bigCourse [] none) = 3536 := by
    simp [approxTokens, ctx_len]
  simp only [truncate_context, hc]
  norm_num [ctx_len]

/-- Claim C1 (amended): for every token-estimate function and every question,
course map, discourse map, and optional image text, WHEN the token estimate
of the assembled context exceeds 12000 tokens, the truncation step cuts the
context to its first 12000 characters and the result never exceeds 12000
characters (when the estimate is at most 12000 the context passes through
unchanged and can exceed 12000 characters). -/
theorem C1_truncation_amended (f : String → Nat) (q : String)
    (c : List (String × CourseEntry)) (d : List (String × Topic)) (i : Option String)
    (h : f (create_context q c d i) > 12000) :
    truncate_context f (create_context q c d i) = pyTake (create_context q c d i) 12000 ∧
    pyLen (truncate_context f (create_context q c d i)) ≤ 12000 := by
  refine ⟨by simp only [truncate_context, if_pos h], ?_⟩
  simp only [truncate_context, if_pos h, pyLen_pyTake]
  omega

/-- Witness for C1 (amended) at a constant 20000-token estimate on empty
maps. -/
theorem C1_truncation_amended_witness :
    (fun _ : String => 20000) (create_context "q" [] [] none) > 12000 ∧
    (truncate_context (fun _ => 20000) (create_context "q" [] [] none) =
        pyTake (create_context "q" [] [] none) 12000 ∧
      pyLen (truncate_context (fun _ => 20000) (create_context "q" [] [] none)) ≤ 12000) :=
  ⟨by decide, C1_truncation_amended (fun _ => 20000) "q" [] [] none (by decide)⟩

/-- Claim C2: for every question whose lowercased text contains none of the
fixed keywords "gpt", "model", "api", "ga5", the links list of the
`AnswerResponse` is empty, regardless of the discourse map. -/
theorem C2_no_keyword_no_links (q : String) (d : List (String × Topic))
    (h : hasKeyword q = false) : answer_links q d = [] := by
  simp [answer_links, collect_links_eq_nil q d h]

/-- Witness for C2: the question "hello" has no keyword, and the links are
empty even over a non-empty discourse map. -/
theorem C2_no_keyword_no_links_witness :
    hasKeyword "hello" = false ∧ answer_links "hello" [("7", topicA)] = [] :=
  ⟨by decide, C2_no_keyword_no_links "hello" [("7", topicA)] (by decide)⟩

/-- Claim C3: for every question containing a fixed keyword, the returned
links are the first three candidates in discovery order; there are at most
three of them; each comes from a post of a topic of the map with url equal
to the topic url, `"/"`, and the post number; its text is the first 100
characters of the content plus `"..."` (103 characters total) when the
content exceeds 100 characters, and the exact content otherwise. -/
theorem C3_keyword_links_shape (q : String) (d : List (String × Topic))
    (h : hasKeyword q = true) :
    answer_links q d = (all_candidates d).take 3 ∧
    (answer_links q d).length ≤ 3 ∧
    ∀ l ∈ answer_links q d, ∃ tt ∈ d, ∃ p ∈ tt.2.posts.getD [],
      l.url = tt.2.url ++ "/" ++ toString p.post_number ∧
      (pyLen p.content > 100 → l.text = pyTake p.content 100 ++ "..." ∧ pyLen l.text = 103) ∧
      (pyLen p.content ≤ 100 → l.text = p.content) := by
  have he : answer_links q d = (all_candidates d).take 3 := by
    simp [answer_links, collect_links_eq_all q d h]
  refine ⟨he, ?_, ?_⟩
  · rw [he, List.length_take]; omega
  · intro l hl
    rw [he] at hl
    have hl2 : l ∈ all_candidates d := List.mem_of_mem_take hl
    rw [all_candidates, List.mem_flatMap] at hl2
    obtain ⟨tt, htt, hm⟩ := hl2
    rw [List.mem_map] at hm
    obtain ⟨p, hp, rfl⟩ := hm
    refine ⟨tt, htt, p, hp, rfl, ?_, ?_⟩
    · intro hlen
      have h3 : pyLen "..." = 3 := rfl
      have htext : (mkLink tt.2 p).text = pyTake p.content 100 ++ "..." := by
        simp [mkLink, hlen]
      exact ⟨htext, by rw [htext, pyLen_append, pyLen_pyTake, h3]; omega⟩
    · intro hlen
      simp only [mkLink]
      rw [if_neg (by omega)]

/-- Witness for C3 at the keyword question "about gpt" on a one-post map. -/
theorem C3_keyword_links_shape_witness :
    hasKeyword "about gpt" = true ∧
    (answer_links "about gpt" discC3 = (all_candidates discC3).take 3 ∧
      (answer_links "about gpt" discC3).length ≤ 3 ∧
      ∀ l ∈ answer_links "about gpt" discC3, ∃ tt ∈ discC3, ∃ p ∈ tt.2.posts.getD [],
        l.url = tt.2.url ++ "/" ++ toString p.post_number ∧
        (pyLen p.content > 100 → l.text = pyTake p.content 100 ++ "..." ∧ pyLen l.text = 103) ∧
        (pyLen p.content ≤ 100 → l.text = p.content)) :=
  ⟨by decide, C3_keyword_links_shape "about gpt" discC3 (by decide)⟩

/-- Claim C4: for every request whose question is empty or consists only of
whitespace, the `POST /api/` endpoint returns the 400 client error and makes
no upstream chat call and no OCR call (the recorded call list is empty). -/
theorem C4_blank_question_rejected (env : Env) (q : String) (i : Option String)
    (h : q.data.all isPySpace = true) :
    api_endpoint env ⟨q, i⟩ = (.error ⟨400, "Question cannot be empty"⟩, []) := by
  simp [api_endpoint, pyStrip_of_all h]

/-- Witness for C4 at a two-space question with an image attached. -/
theorem C4_blank_question_rejected_witness :
    "  ".data.all isPySpace = true ∧
    api_endpoint envC4 ⟨"  ", some "img"⟩ = (.error ⟨400, "Question cannot be empty"⟩, []) :=
  ⟨by decide, C4_blank_question_rejected envC4 "  " (some "img") (by decide)⟩

/-- Claim C5, as stated, is false: an unexpected non-OpenAIError exception
with message `"boom"` raised during the body of `answer_question` reaches
the caller as a 500 whose detail is `"Error processing question: boom"` —
the original cause IS exposed in the message (it occurs as a substring), and
the detail is not the generic `"Internal server error"`. -/
theorem C5_counterexample :
    (api_endpoint envC5 ⟨"what is 2+2", none⟩).1 =
      .error ⟨500, "Error processing question: boom"⟩ ∧
    hasSub "boom".data "Error processing question: boom".data = true ∧
    "Error processing question: boom" ≠ "Internal server error" := by
  refine ⟨?_, by decide, by decide⟩
  rfl

/-- Claim C5 (amended): an unexpected internal error (any exception other
than an `openai.OpenAIError`) raised while `answer_question` processes a
non-blank question is reported to the caller as a 500 server error whose
detail embeds the original cause as `"Error processing question: " ++ msg`
(the generic `"Internal server error"` hiding the cause applies only to
exceptions raised at the endpoint level outside `answer_question`). -/
theorem C5_internal_error_amended (env : Env) (q : String) (i : Option String) (m : String)
    (hq : pyStrip q ≠ "")
    (hchat : ∀ s, env.chat s = .error (.otherErr m)) :
    (api_endpoint env ⟨q, i⟩).1 = .error ⟨500, "Error processing question: " ++ m⟩ := by
  simp [api_endpoint, hq, answer_question_method, hchat]

/-- Witness for C5 (amended) at the concrete failing environment. -/
theorem C5_internal_error_amended_witness :
    pyStrip "what is 2+2" ≠ "" ∧
    (∀ s, envC5.chat s = .error (.otherErr "boom")) ∧
    (api_endpoint envC5 ⟨"what is 2+2", none⟩).1 =
      .error ⟨500, "Error processing question: boom"⟩ :=
  ⟨by decide, fun _ => rfl,
    C5_internal_error_amended envC5 "what is 2+2" none "boom" (by decide) (fun _ => rfl)⟩

/-- Claim C6, as stated, is false at present-but-empty image text: with
`image_text = some ""` the code emits no image section (Python truthiness),
while the claim, which keys the section on presence alone, requires one —
the code output differs from the claim-worded assembly. -/
theorem C6_counterexample :
    create_context "q" [] [] (some "") ≠ create_context_spec "q" [] [] (some "") := by
  decide

/-- Claim C6 (amended): for every question, course map, discourse map, and
image text that is either absent or non-empty, the assembled context is
exactly as the claim describes (image section of at most the first 1000
characters of the image text prepended when present and non-empty, then per
course entry a title/url header and at most the first 2000 characters of raw
content, then per topic a title/url header and per post `"Post #N: "` plus
at most the first 1000 characters of content), i.e. `create_context` agrees
with the claim-worded `create_context_spec`. -/
theorem C6_assembly_amended (q : String) (c : List (String × CourseEntry))
    (d : List (String × Topic)) (i : Option String)
    (h : i = none ∨ ∃ t, i = some t ∧ t ≠ "") :
    create_context q c d i = create_context_spec q c d i := by
  rcases h with rfl | ⟨t, rfl, ht⟩
  · rfl
  · simp [create_context, create_context_spec, ht]

/-- Witness for C6 (amended) at non-empty image text. -/
theorem C6_assembly_amended_witness :
    ((some "hello" : Option String) = none ∨
      ∃ t, (some "hello" : Option String) = some t ∧ t ≠ "") ∧
    create_context "q" [] [] (some "hello") = create_context_spec "q" [] [] (some "hello") :=
  ⟨Or.inr ⟨"hello", rfl, by decide⟩,
    C6_assembly_amended "q" [] [] (some "hello") (Or.inr ⟨"hello", rfl, by decide⟩)⟩

/-- Claim C7: OCR extraction never propagates a failure — `process_image` is
total, and on any OCR failure it returns the fixed placeholder
`"Error processing image"`; consequently an OCR failure does not fail the
answer request: with a failing OCR engine and a successful chat call the
endpoint still returns a successful `AnswerResponse`. -/
theorem C7_ocr_failure_nonfatal (env : Env) (img m q : String)
    (ho : env.ocr img = .error m)
    (hchat : ∀ s, ∃ a, env.chat s = .ok a)
    (hq : pyStrip q ≠ "") :
    process_image (env.ocr img) = "Error processing image" ∧
    ∃ r, (api_endpoint env ⟨q, some img⟩).1 = .ok r := by
  constructor
  · rw [ho]; rfl
  · obtain ⟨a, ha⟩ := hchat ("Context:\n" ++
      truncate_context env.count_tokens
        (create_context q env.course env.disc (some (process_image (env.ocr img)))) ++
      "\n\nQuestion: " ++ q)
    exact ⟨⟨a, answer_links q env.disc⟩, by simp [api_endpoint, hq, answer_question_method, ha]⟩

/-- Witness for C7 at a concrete environment whose OCR engine fails. -/
theorem C7_ocr_failure_nonfatal_witness :
    envC7.ocr "img" = .error "tesseract failed" ∧
    (∀ s, ∃ a, envC7.chat s = .ok a) ∧
    pyStrip "hi" ≠ "" ∧
    (process_image (envC7.ocr "img") = "Error processing image" ∧
      ∃ r, (api_endpoint envC7 ⟨"hi", some "img"⟩).1 = .ok r) :=
  ⟨rfl, fun _ => ⟨"answer", rfl⟩, by decide,
    C7_ocr_failure_nonfatal envC7 "img" "tesseract failed" "hi" rfl
      (fun _ => ⟨"answer", rfl⟩) (by decide)⟩

/-- Claim C8: context assembly is deterministic — two runs of
`create_context` on equal questions, equal course maps, equal discourse maps
and equal optional image texts produce identical context strings. -/
theorem C8_context_deterministic (q1 q2 : String) (c1 c2 : List (String × CourseEntry))
    (d1 d2 : List (String × Topic)) (i1 i2 : Option String)
    (h1 : q1 = q2) (h2 : c1 = c2) (h3 : d1 = d2) (h4 : i1 = i2) :
    create_context q1 c1 d1 i1 = create_context q2 c2 d2 i2 := by
  subst h1 h2 h3 h4; rfl

/-- Witness for C8 at concrete equal inputs. -/
theorem C8_context_deterministic_witness :
    "q" = "q" ∧ ([] : List (String × CourseEntry)) = [] ∧ [("7", topicA)] = [("7", topicA)] ∧
    (some "img" : Option String) = some "img" ∧
    create_context "q" [] [("7", topicA)] (some "img") =
      create_context "q" [] [("7", topicA)] (some "img") :=
  ⟨rfl, rfl, rfl, rfl,
    C8_context_deterministic "q" "q" [] [] [("7", topicA)] [("7", topicA)]
      (some "img") (some "img") rfl rfl rfl rfl⟩

/-- Claim C9, as stated, is false: for the question "Which GPT model should I
use?" over `discC9`, whose second topic `topicB` has a post containing
"gpt-3.5-turbo-0125", all three returned links come from the three posts of
the preceding topic `topicA` (the `[:3]` cut), so no returned link url
embeds the url of `topicB`. -/
theorem C9_counterexample :
    (∃ p ∈ topicB.posts.getD [], hasSub "gpt-3.5-turbo-0125".data p.content.data = true) ∧
    ∀ l ∈ answer_links "Which GPT model should I use?" discC9,
      hasSub topicB.url.data l.url.data = false := by
  decide

/-- Claim C9 (amended): for the question "Which GPT model should I use?" and
any discourse map containing a topic one of whose posts contains
"gpt-3.5-turbo-0125", PROVIDED the topics preceding it contribute at most
two candidate posts, the returned links contain at least one link whose url
is built from that topic url (topic url, `"/"`, post number). -/
theorem C9_example_amended (pre suf : List (String × Topic)) (tid : String) (T : Topic)
    (p0 : Post) (hp : p0 ∈ T.posts.getD [])
    (hc : hasSub "gpt-3.5-turbo-0125".data p0.content.data = true)
    (hlen : (all_candidates pre).length ≤ 2) :
    ∃ l ∈ answer_links "Which GPT model should I use?" (pre ++ (tid, T) :: suf),
      ∃ p ∈ T.posts.getD [], l.url = T.url ++ "/" ++ toString p.post_number := by
  have hk : hasKeyword "Which GPT model should I use?" = true := by decide
  have he := collect_links_eq_all "Which GPT model should I use?" (pre ++ (tid, T) :: suf) hk
  obtain ⟨p1, ps, hps⟩ : ∃ p1 ps, T.posts.getD [] = p1 :: ps := by
    cases hgd : T.posts.getD [] with
    | nil => rw [hgd] at hp; cases hp
    | cons p1 ps => exact ⟨p1, ps, rfl⟩
  refine ⟨mkLink T p1, ?_, p1, by rw [hps]; exact List.mem_cons_self _ _, rfl⟩
  rw [answer_links, he, all_candidates, List.flatMap_append, List.flatMap_cons, hps]
  simp only [List.map_cons, List.cons_append]
  exact mem_take_three_append _ _ _ hlen

/-- Witness for C9 (amended): `topicB` alone in the map yields a link built
from its url. -/
theorem C9_example_amended_witness :
    (⟨1, "use gpt-3.5-turbo-0125 here"⟩ : Post) ∈ topicB.posts.getD [] ∧
    hasSub "gpt-3.5-turbo-0125".data
      (⟨1, "use gpt-3.5-turbo-0125 here"⟩ : Post).content.data = true ∧
    (all_candidates []).length ≤ 2 ∧
    (∃ l ∈ answer_links "Which GPT model should I use?" ([] ++ ("42", topicB) :: []),
      ∃ p ∈ topicB.posts.getD [], l.url = topicB.url ++ "/" ++ toString p.post_number) :=
  ⟨by decide, by decide, by decide,
    C9_example_amended [] [] "42" topicB ⟨1, "use gpt-3.5-turbo-0125 here"⟩
      (by decide) (by decide) (by decide)⟩

/-- Claim C10: `process_image` always returns a non-empty string (stripped
OCR text, `"No text extracted from image"`, or `"Error processing image"`),
so whenever an image is supplied the assembled context always begins with
the `"=== IMAGE CONTENT ==="` section, even when OCR fails or extracts
nothing. -/
theorem C10_image_section_always (o : Except String String) (q : String)
    (c : List (String × CourseEntry)) (d : List (String × Topic)) :
    process_image o ≠ "" ∧
    ∃ rest, create_context q c d (some (process_image o)) =
      "=== IMAGE CONTENT ===" ++ "\n" ++ rest := by
  have hne : process_image o ≠ "" := by
    cases o with
    | error m => simp [process_image]
    | ok t =>
      simp only [process_image]
      split
      · simp
      · assumption
  refine ⟨hne, ?_⟩
  simp only [create_context, if_neg hne, List.cons_append, List.nil_append]
  exact ⟨_, pyJoin_cons_cons _ _ _ _⟩

end TDS
